import Mathlib

/-!
# StepCollateArtifacts (builder/hyperv/common/step_collate_artifacts.go)

A shallow embedding of the `StepCollateArtifacts` build step of the Hyper-V
builder.  The step reads the shared state bag, optionally translates paths
through the `wsl` package, calls exactly one driver operation and reports to
the user interface.

Go features and how they are embedded:

* the state bag (`multistep.StateBag`, a map from string keys to values of any
  dynamic type) is a partial function from keys to `Value`;
* a failed type assertion (`x.(T)`) panics: `Run` then has no return value,
  which is `Outcome.result = none`;
* every effect of `Run` on a collaborator (user interface, path translator,
  driver, state bag writes) is appended, in program order, to a trace;
* the collaborators that live outside this file (the `wsl` package and the
  `Driver` implementation) are parameters, deterministic in their arguments.
-/

namespace StepCollate

/-- Go `error` values.  `errorString` is the value built by `fmt.Errorf` with a
format that has no wrapping verb; `custom` is any other error implementation,
told apart by a type tag. -/
inductive GoError where
  | errorString (msg : String)
  | custom (tag : Nat) (msg : String)
  deriving DecidableEq, Repr

/-- The `Error()` method of the `error` interface. -/
def GoError.Error : GoError → String
  | .errorString msg => msg
  | .custom _ msg => msg

/-- Go `fmt.Errorf(format ++ "%s", err)`: the verb prints `err.Error()`, and
the result is a fresh error string. -/
def fmtErrorf (lead : String) (err : GoError) : GoError :=
  .errorString (lead ++ err.Error)

/-- The two return values of `multistep.StepAction` used by the step. -/
inductive StepAction where
  | ActionContinue
  | ActionHalt
  deriving DecidableEq, Repr

/-- The part of the `Driver` interface that the step calls.  A result of `none`
is Go's `nil` error. -/
structure Driver where
  MoveCreatedVHDsToOutputDir : String → String → Option GoError
  PreserveLegacyExportBehaviour : String → String → Option GoError

/-- The `wsl` package as seen by the step: `IsWSL()` and
`ConvertWSlPathToWindowsPath(path)`, which returns a string and an error
(`none` is `nil`). -/
structure Wsl where
  IsWSL : Bool
  ConvertWSlPathToWindowsPath : String → String × Option GoError

/-- Dynamic values held by the state bag: strings, errors, a driver handle, a
user-interface handle, or a value of any other dynamic type (among them a nil
interface that was stored explicitly). -/
inductive Value where
  | str (s : String)
  | err (e : GoError)
  | driver (d : Driver)
  | ui
  | other (n : Nat)

/-- The state bag: a finite map from keys to values, as a partial function. -/
abbrev StateBag := String → Option Value

/-- `state.Get(k)`: the value, or nil (`none`) when the key is absent. -/
def StateBag.Get (state : StateBag) (k : String) : Option Value := state k

/-- `state.GetOk(k)`: the value together with the presence flag. -/
def StateBag.GetOk (state : StateBag) (k : String) : Option Value × Bool :=
  match state k with
  | some v => (some v, true)
  | none => (none, false)

/-- `state.Put(k, v)`. -/
def StateBag.Put (state : StateBag) (k : String) (v : Value) : StateBag :=
  fun key => if key = k then some v else state key

/-- The type assertion `x.(Driver)`; `none` is a panic. -/
def assertDriver : Option Value → Option Driver
  | some (.driver d) => some d
  | _ => none

/-- The type assertion `x.(packersdk.Ui)`; `none` is a panic. -/
def assertUi : Option Value → Option Unit
  | some .ui => some ()
  | _ => none

/-- The type assertion `x.(string)`; `none` is a panic. -/
def assertString : Option Value → Option String
  | some (.str s) => some s
  | _ => none

/-- Observable effects of the step, in program order. -/
inductive Event where
  | uiSay (msg : String)
  | uiError (msg : String)
  | convert (path : String) (out : String) (err : Option GoError)
  | move (buildDir outputDir : String) (err : Option GoError)
  | preserve (exportPath outputDir : String) (err : Option GoError)
  | statePut (key : String) (v : Value)

/-- What a run leaves behind: the returned action (`none` when the run
panicked), the state bag afterwards and the trace of effects. -/
structure Outcome where
  result : Option StepAction
  state : StateBag
  trace : List Event

/-- The step value: `OutputDir` and `SkipExport`. -/
structure StepCollateArtifacts where
  OutputDir : String
  SkipExport : Bool

/-- Lines 39 to 90 of `Run`: the dispatch on `SkipExport`, entered with the
resolved `outputDir` and the trace `tr` produced so far. -/
def collate (s : StepCollateArtifacts) (w : Wsl) (state : StateBag) (driver : Driver)
    (outputDir : String) (tr : List Event) : Outcome :=
  if s.SkipExport then
    -- var buildDir string; if v, ok := state.GetOk("build_dir"); ok { buildDir = v.(string) }
    let got := state.GetOk "build_dir"
    match (if got.2 then assertString got.1 else some "") with
    | none => ⟨none, state, tr⟩
    | some buildDir =>
      match driver.MoveCreatedVHDsToOutputDir buildDir outputDir with
      | some err =>
        let err2 := fmtErrorf "Error moving VHDs from build dir to output dir: " err
        ⟨some .ActionHalt, state.Put "error" (.err err2),
          tr ++ [.move buildDir outputDir (some err), .statePut "error" (.err err2),
                 .uiError err2.Error]⟩
      | none => ⟨some .ActionContinue, state, tr ++ [.move buildDir outputDir none]⟩
  else
    -- var exportPath string; if v, ok := state.GetOk("export_path"); ok { exportPath = v.(string) }
    let got := state.GetOk "export_path"
    match (if got.2 then assertString got.1 else some "") with
    | none => ⟨none, state, tr⟩
    | some exportPath0 =>
      let preserveStep (exportPath : String) (tr1 : List Event) : Outcome :=
        match driver.PreserveLegacyExportBehaviour exportPath outputDir with
        | some err =>
          let err2 := fmtErrorf "WARNING: Error restoring legacy export dir structure: " err
          ⟨some .ActionContinue, state,
            tr1 ++ [.preserve exportPath outputDir (some err), .uiError err2.Error]⟩
        | none => ⟨some .ActionContinue, state, tr1 ++ [.preserve exportPath outputDir none]⟩
      if w.IsWSL then
        let r := w.ConvertWSlPathToWindowsPath exportPath0
        match r.2 with
        | some err =>
          ⟨some .ActionHalt, state.Put "error" (.err err),
            tr ++ [.convert exportPath0 r.1 (some err), .statePut "error" (.err err),
                   .uiError err.Error]⟩
        | none => preserveStep r.1 (tr ++ [.convert exportPath0 r.1 none])
      else preserveStep exportPath0 tr

/-- `StepCollateArtifacts.Run`: lines 22 to 37 followed by `collate`. -/
def Run (s : StepCollateArtifacts) (w : Wsl) (state : StateBag) : Outcome :=
  match assertDriver (state.Get "driver") with
  | none => ⟨none, state, []⟩
  | some driver =>
    match assertUi (state.Get "ui") with
    | none => ⟨none, state, []⟩
    | some _ =>
      let tr : List Event := [.uiSay "Collating build artifacts..."]
      if w.IsWSL then
        let r := w.ConvertWSlPathToWindowsPath s.OutputDir
        match r.2 with
        | some err =>
          ⟨some .ActionHalt, state.Put "error" (.err err),
            tr ++ [.convert s.OutputDir r.1 (some err), .statePut "error" (.err err),
                   .uiError err.Error]⟩
        | none => collate s w state driver r.1 (tr ++ [.convert s.OutputDir r.1 none])
      else collate s w state driver s.OutputDir tr

/-- `StepCollateArtifacts.Cleanup`: does nothing. -/
def Cleanup (_s : StepCollateArtifacts) (state : StateBag) : StateBag := state

/-- True on the two driver operations. -/
def isDriverCall : Event → Bool
  | .move _ _ _ => true
  | .preserve _ _ _ => true
  | _ => false

/-- True on calls of the path translator. -/
def isConvert : Event → Bool
  | .convert _ _ _ => true
  | _ => false

/-- True on writes to the state bag. -/
def isPut : Event → Bool
  | .statePut _ _ => true
  | _ => false

/-- True on calls of a collaborator that can fail: the path translator and the
two driver operations. -/
def isCollabCall (ev : Event) : Bool := isConvert ev || isDriverCall ev

/-- The error a collaborator call returned, if any. -/
def errOf : Event → Option GoError
  | .convert _ _ err => err
  | .move _ _ err => err
  | .preserve _ _ err => err
  | _ => none

/-- The texts passed to `ui.Error`, in order. -/
def uiErrors : List Event → List String
  | [] => []
  | .uiError msg :: tr => msg :: uiErrors tr
  | _ :: tr => uiErrors tr

/-- The driver calls of a trace, in order. -/
def driverCalls (tr : List Event) : List Event := tr.filter isDriverCall

/-- The translator calls of a trace, in order. -/
def converts (tr : List Event) : List Event := tr.filter isConvert

/-- The collaborator calls of a trace, in order. -/
def collabCalls (tr : List Event) : List Event := tr.filter isCollabCall

/-- The state bag writes of a trace, in order. -/
def puts (tr : List Event) : List Event := tr.filter isPut

/-- Replays the writes recorded in a trace on a state bag. -/
def applyPuts (state : StateBag) : List Event → StateBag
  | [] => state
  | .statePut k v :: tr => applyPuts (state.Put k v) tr
  | _ :: tr => applyPuts state tr

/-- How `Run` reads a path key: the stored string, or the empty string when the
key is absent. -/
def ReadsAs (state : StateBag) (k : String) (v : String) : Prop :=
  state k = some (.str v) ∨ (state k = none ∧ v = "")

/-- The text `part` occurs inside `text`. -/
def Contains (text part : String) : Prop := ∃ a b : String, text = a ++ part ++ b

/-- The `outputDir` that reaches the dispatch: the translator's string under
WSL, `s.OutputDir` itself otherwise. -/
def resolvedOutputDir (s : StepCollateArtifacts) (w : Wsl) : String :=
  if w.IsWSL then (w.ConvertWSlPathToWindowsPath s.OutputDir).1 else s.OutputDir

/-- The export path that reaches the driver: the translator's string for `x`
under WSL, `x` itself otherwise. -/
def resolvedExportPath (w : Wsl) (x : String) : String :=
  if w.IsWSL then (w.ConvertWSlPathToWindowsPath x).1 else x

/-- A translation of `OutputDir` is required and fails. -/
def OutputDirFails (s : StepCollateArtifacts) (w : Wsl) : Prop :=
  w.IsWSL = true ∧ (w.ConvertWSlPathToWindowsPath s.OutputDir).2 ≠ none

/-- Full-export mode, the translation of `OutputDir` went through, and the
required translation of the export path `x` fails. -/
def ExportPathFails (s : StepCollateArtifacts) (w : Wsl) (x : String) : Prop :=
  ¬ OutputDirFails s w ∧ s.SkipExport = false ∧ w.IsWSL = true ∧
    (w.ConvertWSlPathToWindowsPath x).2 ≠ none

/-- Skip-export mode, the translation of `OutputDir` went through, and the
driver's move of the disks from build directory `b` returns an error. -/
def MoveFails (s : StepCollateArtifacts) (w : Wsl) (d : Driver) (b : String) : Prop :=
  ¬ OutputDirFails s w ∧ s.SkipExport = true ∧
    d.MoveCreatedVHDsToOutputDir b (resolvedOutputDir s w) ≠ none

/-- A driver whose two operations succeed. -/
def okDriver : Driver := ⟨fun _ _ => none, fun _ _ => none⟩

/-- A driver whose two operations fail. -/
def failDriver : Driver :=
  ⟨fun _ _ => some (.custom 1 "disk full"), fun _ _ => some (.custom 2 "access denied")⟩

/-- An environment that is not WSL. -/
def noWsl : Wsl := ⟨false, fun p => (p, none)⟩

/-- A WSL environment whose translator succeeds on every path. -/
def wslOk : Wsl := ⟨true, fun p => ("C:" ++ p, none)⟩

/-- A WSL environment whose translator fails on every path. -/
def wslBad : Wsl := ⟨true, fun _ => ("", some (.custom 3 "wslpath failed"))⟩

/-- A WSL environment whose translator fails on the path `/e` only. -/
def wslBadExport : Wsl :=
  ⟨true, fun p => if p = "/e" then ("", some (.custom 4 "no such path")) else ("C:" ++ p, none)⟩

/-- A state bag with a driver, a user interface, `build_dir = "/b"` and
`export_path = "/e"`. -/
def sampleState (d : Driver) : StateBag := fun k =>
  if k = "driver" then some (.driver d)
  else if k = "ui" then some .ui
  else if k = "build_dir" then some (.str "/b")
  else if k = "export_path" then some (.str "/e")
  else none

/-- A state bag with a driver and a user interface and no path key. -/
def bareState (d : Driver) : StateBag := fun k =>
  if k = "driver" then some (.driver d)
  else if k = "ui" then some .ui
  else none

/-- With a driver and a user interface in the bag, `Run` passes both type
assertions and reaches the translation of `OutputDir`. -/
theorem Run_of_handles (s : StepCollateArtifacts) (w : Wsl) (state : StateBag) (d : Driver)
    (hd : state "driver" = some (.driver d)) (hu : state "ui" = some .ui) :
    Run s w state =
      if w.IsWSL then
        match (w.ConvertWSlPathToWindowsPath s.OutputDir).2 with
        | some err =>
          ⟨some .ActionHalt, state.Put "error" (.err err),
            [.uiSay "Collating build artifacts...",
             .convert s.OutputDir (w.ConvertWSlPathToWindowsPath s.OutputDir).1 (some err),
             .statePut "error" (.err err), .uiError err.Error]⟩
        | none => collate s w state d (w.ConvertWSlPathToWindowsPath s.OutputDir).1
            [.uiSay "Collating build artifacts...",
             .convert s.OutputDir (w.ConvertWSlPathToWindowsPath s.OutputDir).1 none]
      else collate s w state d s.OutputDir [.uiSay "Collating build artifacts..."] := by
  simp [Run, StateBag.Get, hd, hu, assertDriver, assertUi]

/-- The guarded read of a path key yields the string described by `ReadsAs`. -/
theorem readPath_of_readsAs (state : StateBag) (k v : String) (h : ReadsAs state k v) :
    (if (state.GetOk k).2 then assertString (state.GetOk k).1 else some "") = some v := by
  rcases h with h | ⟨h, rfl⟩ <;> simp [StateBag.GetOk, h, assertString]

/-- The dispatch in skip-export mode, with the build directory read as `b`. -/
theorem collate_skip (s : StepCollateArtifacts) (w : Wsl) (state : StateBag) (d : Driver)
    (o b : String) (tr : List Event) (hs : s.SkipExport = true)
    (hb : ReadsAs state "build_dir" b) :
    collate s w state d o tr =
      match d.MoveCreatedVHDsToOutputDir b o with
      | some err =>
        ⟨some .ActionHalt,
          state.Put "error" (.err (fmtErrorf "Error moving VHDs from build dir to output dir: " err)),
          tr ++ [.move b o (some err),
                 .statePut "error" (.err (fmtErrorf "Error moving VHDs from build dir to output dir: " err)),
                 .uiError (fmtErrorf "Error moving VHDs from build dir to output dir: " err).Error]⟩
      | none => ⟨some .ActionContinue, state, tr ++ [.move b o none]⟩ := by
  simp only [collate, hs, if_true, readPath_of_readsAs state "build_dir" b hb]

/-- The dispatch in full-export mode, with the export path read as `x`. -/
theorem collate_full (s : StepCollateArtifacts) (w : Wsl) (state : StateBag) (d : Driver)
    (o x : String) (tr : List Event) (hs : s.SkipExport = false)
    (hx : ReadsAs state "export_path" x) :
    collate s w state d o tr =
      if w.IsWSL then
        match (w.ConvertWSlPathToWindowsPath x).2 with
        | some err =>
          ⟨some .ActionHalt, state.Put "error" (.err err),
            tr ++ [.convert x (w.ConvertWSlPathToWindowsPath x).1 (some err),
                   .statePut "error" (.err err), .uiError err.Error]⟩
        | none =>
          match d.PreserveLegacyExportBehaviour (w.ConvertWSlPathToWindowsPath x).1 o with
          | some err =>
            ⟨some .ActionContinue, state,
              (tr ++ [.convert x (w.ConvertWSlPathToWindowsPath x).1 none]) ++
                [.preserve (w.ConvertWSlPathToWindowsPath x).1 o (some err),
                 .uiError (fmtErrorf "WARNING: Error restoring legacy export dir structure: " err).Error]⟩
          | none =>
            ⟨some .ActionContinue, state,
              (tr ++ [.convert x (w.ConvertWSlPathToWindowsPath x).1 none]) ++
                [.preserve (w.ConvertWSlPathToWindowsPath x).1 o none]⟩
      else
        match d.PreserveLegacyExportBehaviour x o with
        | some err =>
          ⟨some .ActionContinue, state,
            tr ++ [.preserve x o (some err),
                   .uiError (fmtErrorf "WARNING: Error restoring legacy export dir structure: " err).Error]⟩
        | none => ⟨some .ActionContinue, state, tr ++ [.preserve x o none]⟩ := by
  simp only [collate, hs, readPath_of_readsAs state "export_path" x hx]
  rfl

/-- The run in skip-export mode when the dispatch is reached. -/
theorem Run_skip_reached (s : StepCollateArtifacts) (w : Wsl) (state : StateBag) (d : Driver)
    (b : String) (hs : s.SkipExport = true)
    (hd : state "driver" = some (.driver d)) (hu : state "ui" = some .ui)
    (hb : ReadsAs state "build_dir" b) (hno : ¬ OutputDirFails s w) :
    Run s w state =
      match d.MoveCreatedVHDsToOutputDir b (resolvedOutputDir s w) with
      | some err =>
        ⟨some .ActionHalt,
          state.Put "error" (.err (fmtErrorf "Error moving VHDs from build dir to output dir: " err)),
          .uiSay "Collating build artifacts..." ::
            ((if w.IsWSL then [.convert s.OutputDir (resolvedOutputDir s w) none] else []) ++
            [.move b (resolvedOutputDir s w) (some err),
             .statePut "error" (.err (fmtErrorf "Error moving VHDs from build dir to output dir: " err)),
             .uiError (fmtErrorf "Error moving VHDs from build dir to output dir: " err).Error])⟩
      | none =>
        ⟨some .ActionContinue, state,
          .uiSay "Collating build artifacts..." ::
            ((if w.IsWSL then [.convert s.OutputDir (resolvedOutputDir s w) none] else []) ++
            [.move b (resolvedOutputDir s w) none])⟩ := by
  rw [Run_of_handles s w state d hd hu]
  unfold OutputDirFails at hno
  unfold resolvedOutputDir
  cases hw : w.IsWSL
  · simp only [collate_skip s w state d _ b _ hs hb, Bool.false_eq_true, if_false]
    cases d.MoveCreatedVHDsToOutputDir b s.OutputDir <;> simp
  · have hcv : (w.ConvertWSlPathToWindowsPath s.OutputDir).2 = none := by
      simpa [hw] using hno
    simp only [hcv, collate_skip s w state d _ b _ hs hb, if_true]
    cases d.MoveCreatedVHDsToOutputDir b (w.ConvertWSlPathToWindowsPath s.OutputDir).1 <;> simp

/-- The run in full-export mode when no required translation fails. -/
theorem Run_full_reached (s : StepCollateArtifacts) (w : Wsl) (state : StateBag) (d : Driver)
    (x : String) (hs : s.SkipExport = false)
    (hd : state "driver" = some (.driver d)) (hu : state "ui" = some .ui)
    (hx : ReadsAs state "export_path" x) (hno : ¬ OutputDirFails s w)
    (hnx : ¬ ExportPathFails s w x) :
    Run s w state =
      match d.PreserveLegacyExportBehaviour (resolvedExportPath w x) (resolvedOutputDir s w) with
      | some err =>
        ⟨some .ActionContinue, state,
          .uiSay "Collating build artifacts..." ::
            ((if w.IsWSL then
                [.convert s.OutputDir (resolvedOutputDir s w) none,
                 .convert x (resolvedExportPath w x) none]
              else []) ++
            [.preserve (resolvedExportPath w x) (resolvedOutputDir s w) (some err),
             .uiError (fmtErrorf "WARNING: Error restoring legacy export dir structure: " err).Error])⟩
      | none =>
        ⟨some .ActionContinue, state,
          .uiSay "Collating build artifacts..." ::
            ((if w.IsWSL then
                [.convert s.OutputDir (resolvedOutputDir s w) none,
                 .convert x (resolvedExportPath w x) none]
              else []) ++
            [.preserve (resolvedExportPath w x) (resolvedOutputDir s w) none])⟩ := by
  rw [Run_of_handles s w state d hd hu]
  unfold ExportPathFails at hnx
  unfold OutputDirFails at hno hnx
  unfold resolvedOutputDir resolvedExportPath
  cases hw : w.IsWSL
  · simp only [collate_full s w state d _ x _ hs hx, hw, Bool.false_eq_true, if_false]
    cases d.PreserveLegacyExportBehaviour x s.OutputDir <;> simp
  · have hcv : (w.ConvertWSlPathToWindowsPath s.OutputDir).2 = none := by
      simpa [hw] using hno
    have hcx : (w.ConvertWSlPathToWindowsPath x).2 = none := by
      simpa [hw, hcv, hs] using hnx
    simp only [hcv, hcx, collate_full s w state d _ x _ hs hx, hw, if_true]
    cases d.PreserveLegacyExportBehaviour (w.ConvertWSlPathToWindowsPath x).1
        (w.ConvertWSlPathToWindowsPath s.OutputDir).1 <;> simp

/-- The run when the required translation of `OutputDir` fails with `e`. -/
theorem Run_outputDir_fails (s : StepCollateArtifacts) (w : Wsl) (state : StateBag) (d : Driver)
    (e : GoError) (hd : state "driver" = some (.driver d)) (hu : state "ui" = some .ui)
    (hw : w.IsWSL = true) (he : (w.ConvertWSlPathToWindowsPath s.OutputDir).2 = some e) :
    Run s w state =
      ⟨some .ActionHalt, state.Put "error" (.err e),
        [.uiSay "Collating build artifacts...",
         .convert s.OutputDir (w.ConvertWSlPathToWindowsPath s.OutputDir).1 (some e),
         .statePut "error" (.err e), .uiError e.Error]⟩ := by
  rw [Run_of_handles s w state d hd hu]
  simp [hw, he]

/-- The run in full-export mode when the translation of `OutputDir` went
through and the translation of the export path fails with `e`. -/
theorem Run_exportPath_fails (s : StepCollateArtifacts) (w : Wsl) (state : StateBag) (d : Driver)
    (x : String) (e : GoError) (hs : s.SkipExport = false)
    (hd : state "driver" = some (.driver d)) (hu : state "ui" = some .ui)
    (hx : ReadsAs state "export_path" x) (hw : w.IsWSL = true)
    (ho : (w.ConvertWSlPathToWindowsPath s.OutputDir).2 = none)
    (he : (w.ConvertWSlPathToWindowsPath x).2 = some e) :
    Run s w state =
      ⟨some .ActionHalt, state.Put "error" (.err e),
        [.uiSay "Collating build artifacts...",
         .convert s.OutputDir (w.ConvertWSlPathToWindowsPath s.OutputDir).1 none,
         .convert x (w.ConvertWSlPathToWindowsPath x).1 (some e),
         .statePut "error" (.err e), .uiError e.Error]⟩ := by
  rw [Run_of_handles s w state d hd hu]
  simp [hw, ho, he, collate_full s w state d _ x _ hs hx]

/-- A state bag without a driver: the first type assertion panics, before any
effect. -/
theorem Run_without_driver (s : StepCollateArtifacts) (w : Wsl) (state : StateBag)
    (hd : state "driver" = none) :
    (Run s w state).result = none ∧ (Run s w state).trace = [] := by
  simp [Run, StateBag.Get, hd, assertDriver]

/-- A value under `build_dir` that is not a string: in skip-export mode, not
under WSL, the type assertion panics before the driver is called. -/
theorem Run_build_dir_not_string (s : StepCollateArtifacts) (w : Wsl) (state : StateBag)
    (d : Driver) (n : Nat) (hs : s.SkipExport = true) (hw : w.IsWSL = false)
    (hd : state "driver" = some (.driver d)) (hu : state "ui" = some .ui)
    (hb : state "build_dir" = some (.other n)) :
    (Run s w state).result = none ∧ driverCalls (Run s w state).trace = [] := by
  rw [Run_of_handles s w state d hd hu]
  simp [hw, collate, hs, StateBag.GetOk, hb, assertString, driverCalls, isDriverCall]

/-- C1: in skip-export mode `Run` never calls `PreserveLegacyExportBehaviour`,
and, on a state bag that holds the driver, the user interface and a build
directory read as `b`, unless the required translation of `OutputDir` fails,
the driver calls of the run are exactly one call of
`MoveCreatedVHDsToOutputDir`. -/
theorem skip_export_calls_only_move (s : StepCollateArtifacts) (w : Wsl) (state : StateBag)
    (hs : s.SkipExport = true) :
    (∀ x o e, Event.preserve x o e ∉ (Run s w state).trace) ∧
    (∀ d b, state "driver" = some (.driver d) → state "ui" = some .ui →
      ReadsAs state "build_dir" b → ¬ OutputDirFails s w →
      ∃ o e, driverCalls (Run s w state).trace = [Event.move b o e]) := by
  constructor
  · intro x o e
    unfold Run collate
    simp only [hs]
    repeat' split
    all_goals simp_all
  · intro d b hd hu hb hno
    rw [Run_of_handles s w state d hd hu]
    unfold OutputDirFails at hno
    cases hw : w.IsWSL
    · simp only [collate_skip s w state d _ b _ hs hb]
      cases hm : d.MoveCreatedVHDsToOutputDir b s.OutputDir <;>
        simp [driverCalls, isDriverCall]
    · have hc : (w.ConvertWSlPathToWindowsPath s.OutputDir).2 = none := by
        simpa [hw] using hno
      simp only [hc, collate_skip s w state d _ b _ hs hb]
      cases hm : d.MoveCreatedVHDsToOutputDir b (w.ConvertWSlPathToWindowsPath s.OutputDir).1 <;>
        simp [driverCalls, isDriverCall]

/-- Witness of C1: build directory `/b`, output directory `/out`, not WSL. -/
theorem skip_export_calls_only_move_witness :
    (∀ x o e, Event.preserve x o e ∉ (Run ⟨"/out", true⟩ noWsl (sampleState okDriver)).trace) ∧
    ∃ o e, driverCalls (Run ⟨"/out", true⟩ noWsl (sampleState okDriver)).trace =
      [Event.move "/b" o e] :=
  ⟨(skip_export_calls_only_move ⟨"/out", true⟩ noWsl (sampleState okDriver) rfl).1,
   (skip_export_calls_only_move ⟨"/out", true⟩ noWsl (sampleState okDriver) rfl).2
      okDriver "/b" rfl rfl (Or.inl rfl) (by simp [OutputDirFails, noWsl])⟩

/-- C2: in full-export mode `Run` never calls `MoveCreatedVHDsToOutputDir`, and,
on a state bag that holds the driver, the user interface and an export path read
as `x`, unless a required translation of `OutputDir` or of the export path
fails, the driver calls of the run are exactly one call of
`PreserveLegacyExportBehaviour`. -/
theorem full_export_calls_only_preserve (s : StepCollateArtifacts) (w : Wsl) (state : StateBag)
    (hs : s.SkipExport = false) :
    (∀ b o e, Event.move b o e ∉ (Run s w state).trace) ∧
    (∀ d x, state "driver" = some (.driver d) → state "ui" = some .ui →
      ReadsAs state "export_path" x → ¬ OutputDirFails s w → ¬ ExportPathFails s w x →
      ∃ p o e, driverCalls (Run s w state).trace = [Event.preserve p o e]) := by
  constructor
  · intro b o e
    unfold Run collate
    simp only [hs]
    repeat' split
    all_goals simp_all
  · intro d x hd hu hx hno hnx
    rw [Run_of_handles s w state d hd hu]
    unfold ExportPathFails at hnx
    unfold OutputDirFails at hno hnx
    cases hw : w.IsWSL
    · simp only [collate_full s w state d _ x _ hs hx, hw]
      cases hm : d.PreserveLegacyExportBehaviour x s.OutputDir <;>
        simp [driverCalls, isDriverCall]
    · have hc : (w.ConvertWSlPathToWindowsPath s.OutputDir).2 = none := by
        simpa [hw] using hno
      have hc2 : (w.ConvertWSlPathToWindowsPath x).2 = none := by
        simpa [hw, hc, hs] using hnx
      simp only [hc, hc2, collate_full s w state d _ x _ hs hx, hw]
      cases hm : d.PreserveLegacyExportBehaviour (w.ConvertWSlPathToWindowsPath x).1
          (w.ConvertWSlPathToWindowsPath s.OutputDir).1 <;>
        simp [driverCalls, isDriverCall]

/-- Witness of C2: export path `/e`, output directory `/out`, under WSL with a
translator that succeeds. -/
theorem full_export_calls_only_preserve_witness :
    (∀ b o e, Event.move b o e ∉ (Run ⟨"/out", false⟩ wslOk (sampleState okDriver)).trace) ∧
    ∃ p o e, driverCalls (Run ⟨"/out", false⟩ wslOk (sampleState okDriver)).trace =
      [Event.preserve p o e] :=
  ⟨(full_export_calls_only_preserve ⟨"/out", false⟩ wslOk (sampleState okDriver) rfl).1,
   (full_export_calls_only_preserve ⟨"/out", false⟩ wslOk (sampleState okDriver) rfl).2
      okDriver "/e" rfl rfl (Or.inl rfl) (by simp [OutputDirFails, wslOk])
      (by simp [ExportPathFails, wslOk])⟩

/-- C3: under WSL, on a state bag that holds the driver and the user interface,
when the translator returns an error `e` for `OutputDir` (either mode), or, in
full-export mode after `OutputDir` was translated, for the export path, `Run`
returns `ActionHalt`, has called no driver operation, and the key `error` holds
`e` itself. -/
theorem translation_failure_halts (s : StepCollateArtifacts) (w : Wsl) (state : StateBag)
    (d : Driver) (hd : state "driver" = some (.driver d)) (hu : state "ui" = some .ui)
    (hw : w.IsWSL = true) :
    (∀ e, (w.ConvertWSlPathToWindowsPath s.OutputDir).2 = some e →
      (Run s w state).result = some .ActionHalt ∧
      driverCalls (Run s w state).trace = [] ∧
      (Run s w state).state "error" = some (.err e)) ∧
    (∀ x e, s.SkipExport = false → ReadsAs state "export_path" x →
      (w.ConvertWSlPathToWindowsPath s.OutputDir).2 = none →
      (w.ConvertWSlPathToWindowsPath x).2 = some e →
      (Run s w state).result = some .ActionHalt ∧
      driverCalls (Run s w state).trace = [] ∧
      (Run s w state).state "error" = some (.err e)) := by
  constructor
  · intro e he
    rw [Run_of_handles s w state d hd hu]
    simp [hw, he, driverCalls, isDriverCall, StateBag.Put]
  · intro x e hs hx ho he
    rw [Run_of_handles s w state d hd hu]
    simp [hw, ho, he, collate_full s w state d _ x _ hs hx, driverCalls, isDriverCall,
      StateBag.Put]

/-- Witness of C3: a translator that fails on every path (skip-export mode), and
one that fails on the export path `/e` only (full-export mode). -/
theorem translation_failure_halts_witness :
    ((Run ⟨"/out", true⟩ wslBad (sampleState okDriver)).result = some .ActionHalt ∧
      driverCalls (Run ⟨"/out", true⟩ wslBad (sampleState okDriver)).trace = [] ∧
      (Run ⟨"/out", true⟩ wslBad (sampleState okDriver)).state "error" =
        some (.err (.custom 3 "wslpath failed"))) ∧
    ((Run ⟨"/out", false⟩ wslBadExport (sampleState okDriver)).result = some .ActionHalt ∧
      driverCalls (Run ⟨"/out", false⟩ wslBadExport (sampleState okDriver)).trace = [] ∧
      (Run ⟨"/out", false⟩ wslBadExport (sampleState okDriver)).state "error" =
        some (.err (.custom 4 "no such path"))) :=
  ⟨(translation_failure_halts ⟨"/out", true⟩ wslBad (sampleState okDriver) okDriver rfl rfl
      rfl).1 (.custom 3 "wslpath failed") rfl,
   (translation_failure_halts ⟨"/out", false⟩ wslBadExport (sampleState okDriver) okDriver rfl
      rfl rfl).2 "/e" (.custom 4 "no such path") rfl (Or.inl rfl) (by decide) (by decide)⟩

/-- C4: in skip-export mode, on a run that reaches the dispatch and in which
`MoveCreatedVHDsToOutputDir` returns an error `e`, `Run` returns `ActionHalt`
and the key `error` holds an error whose message is
`Error moving VHDs from build dir to output dir: ` followed by the message of
`e`, so it contains `Error moving VHDs from build dir to output dir`. -/
theorem move_error_halts (s : StepCollateArtifacts) (w : Wsl) (state : StateBag) (d : Driver)
    (b : String) (e : GoError) (hs : s.SkipExport = true)
    (hd : state "driver" = some (.driver d)) (hu : state "ui" = some .ui)
    (hb : ReadsAs state "build_dir" b) (hno : ¬ OutputDirFails s w)
    (hm : d.MoveCreatedVHDsToOutputDir b (resolvedOutputDir s w) = some e) :
    Event.move b (resolvedOutputDir s w) (some e) ∈ (Run s w state).trace ∧
    (Run s w state).result = some .ActionHalt ∧
    ∃ err, (Run s w state).state "error" = some (.err err) ∧
      err.Error = "Error moving VHDs from build dir to output dir: " ++ e.Error ∧
      Contains err.Error "Error moving VHDs from build dir to output dir" := by
  rw [Run_skip_reached s w state d b hs hd hu hb hno]
  rw [hm]
  dsimp only
  refine ⟨by simp, rfl, fmtErrorf "Error moving VHDs from build dir to output dir: " e,
    by simp [StateBag.Put], rfl, "", ": " ++ e.Error, ?_⟩
  simp only [fmtErrorf, GoError.Error, String.empty_append, ← String.append_assoc]
  rfl

/-- Witness of C4: a driver whose move fails with `disk full`. -/
theorem move_error_halts_witness :
    Event.move "/b" "/out" (some (.custom 1 "disk full")) ∈
      (Run ⟨"/out", true⟩ noWsl (sampleState failDriver)).trace ∧
    (Run ⟨"/out", true⟩ noWsl (sampleState failDriver)).result = some .ActionHalt ∧
    ∃ err, (Run ⟨"/out", true⟩ noWsl (sampleState failDriver)).state "error" = some (.err err) ∧
      err.Error = "Error moving VHDs from build dir to output dir: " ++ "disk full" ∧
      Contains err.Error "Error moving VHDs from build dir to output dir" :=
  move_error_halts ⟨"/out", true⟩ noWsl (sampleState failDriver) failDriver "/b"
    (.custom 1 "disk full") rfl rfl rfl (Or.inl rfl) (by simp [OutputDirFails, noWsl]) rfl

/-- C5: in full-export mode, on a run that reaches the dispatch and in which
`PreserveLegacyExportBehaviour` returns an error `e`, `Run` returns
`ActionContinue`, the state bag (the key `error` in particular) is left as it
was, nothing is written to it, and `ui.Error` receives exactly the text
`WARNING: Error restoring legacy export dir structure: ` followed by the
message of `e`. -/
theorem preserve_error_continues (s : StepCollateArtifacts) (w : Wsl) (state : StateBag)
    (d : Driver) (x : String) (e : GoError) (hs : s.SkipExport = false)
    (hd : state "driver" = some (.driver d)) (hu : state "ui" = some .ui)
    (hx : ReadsAs state "export_path" x) (hno : ¬ OutputDirFails s w)
    (hnx : ¬ ExportPathFails s w x)
    (hp : d.PreserveLegacyExportBehaviour (resolvedExportPath w x) (resolvedOutputDir s w) =
      some e) :
    (Run s w state).result = some .ActionContinue ∧
    (Run s w state).state = state ∧
    (Run s w state).state "error" = state "error" ∧
    puts (Run s w state).trace = [] ∧
    uiErrors (Run s w state).trace =
      ["WARNING: Error restoring legacy export dir structure: " ++ e.Error] := by
  rw [Run_full_reached s w state d x hs hd hu hx hno hnx]
  rw [hp]
  dsimp only
  refine ⟨rfl, rfl, rfl, ?_, ?_⟩
  · cases w.IsWSL <;> simp [puts, isPut]
  · cases w.IsWSL <;> simp [uiErrors, fmtErrorf, GoError.Error]

/-- Witness of C5: a driver whose restructuring fails with `access denied`,
on a state bag whose key `error` is absent. -/
theorem preserve_error_continues_witness :
    (Run ⟨"/out", false⟩ wslOk (sampleState failDriver)).result = some .ActionContinue ∧
    (Run ⟨"/out", false⟩ wslOk (sampleState failDriver)).state = sampleState failDriver ∧
    (Run ⟨"/out", false⟩ wslOk (sampleState failDriver)).state "error" =
      sampleState failDriver "error" ∧
    puts (Run ⟨"/out", false⟩ wslOk (sampleState failDriver)).trace = [] ∧
    uiErrors (Run ⟨"/out", false⟩ wslOk (sampleState failDriver)).trace =
      ["WARNING: Error restoring legacy export dir structure: " ++ "access denied"] :=
  preserve_error_continues ⟨"/out", false⟩ wslOk (sampleState failDriver) failDriver "/e"
    (.custom 2 "access denied") rfl rfl rfl (Or.inl rfl) (by simp [OutputDirFails, wslOk])
    (by simp [ExportPathFails, wslOk]) rfl

/-- C6: on a state bag that holds the driver, the user interface and the path
key of the mode in force, `Run` returns `ActionHalt` exactly when a fatal
condition occurred (the required translation of `OutputDir` failed, or in
full-export mode the required translation of the export path failed, or in
skip-export mode the move of the disks returned an error), and returns
`ActionContinue` in every other case, whatever
`PreserveLegacyExportBehaviour` returns. -/
theorem halt_iff_fatal (s : StepCollateArtifacts) (w : Wsl) (state : StateBag) (d : Driver)
    (b x : String) (hd : state "driver" = some (.driver d)) (hu : state "ui" = some .ui)
    (hb : s.SkipExport = true → ReadsAs state "build_dir" b)
    (hx : s.SkipExport = false → ReadsAs state "export_path" x) :
    ((Run s w state).result = some .ActionHalt ↔
      OutputDirFails s w ∨ ExportPathFails s w x ∨ MoveFails s w d b) ∧
    (¬ (OutputDirFails s w ∨ ExportPathFails s w x ∨ MoveFails s w d b) →
      (Run s w state).result = some .ActionContinue) := by
  by_cases ho : OutputDirFails s w
  · have hr : (Run s w state).result = some .ActionHalt := by
      obtain ⟨hw, he⟩ := ho
      obtain ⟨e, he⟩ := Option.ne_none_iff_exists'.mp he
      rw [Run_outputDir_fails s w state d e hd hu hw he]
    exact ⟨⟨fun _ => Or.inl ho, fun _ => hr⟩, fun h => absurd (Or.inl ho) h⟩
  · cases hs : s.SkipExport
    · have hnm : ¬ MoveFails s w d b := fun h => by
        have := h.2.1
        simp [hs] at this
      by_cases hx2 : ExportPathFails s w x
      · have hr : (Run s w state).result = some .ActionHalt := by
          obtain ⟨_, _, hw, he⟩ := hx2
          obtain ⟨e, he⟩ := Option.ne_none_iff_exists'.mp he
          have hcv : (w.ConvertWSlPathToWindowsPath s.OutputDir).2 = none := by
            simpa [OutputDirFails, hw] using ho
          rw [Run_exportPath_fails s w state d x e hs hd hu (hx hs) hw hcv he]
        exact ⟨⟨fun _ => Or.inr (Or.inl hx2), fun _ => hr⟩,
          fun h => absurd (Or.inr (Or.inl hx2)) h⟩
      · have hr : (Run s w state).result = some .ActionContinue := by
          rw [Run_full_reached s w state d x hs hd hu (hx hs) ho hx2]
          cases d.PreserveLegacyExportBehaviour (resolvedExportPath w x) (resolvedOutputDir s w) <;>
            rfl
        refine ⟨⟨fun h => ?_, fun h => ?_⟩, fun _ => hr⟩
        · rw [hr] at h; cases h
        · rcases h with h | h | h
          · exact absurd h ho
          · exact absurd h hx2
          · exact absurd h hnm
    · have hnx : ¬ ExportPathFails s w x := fun h => by
        have := h.2.1
        simp [hs] at this
      have hrun := Run_skip_reached s w state d b hs hd hu (hb hs) ho
      cases hm : d.MoveCreatedVHDsToOutputDir b (resolvedOutputDir s w) with
      | none =>
        have hr : (Run s w state).result = some .ActionContinue := by rw [hrun, hm]
        have hnm : ¬ MoveFails s w d b := fun h => h.2.2 hm
        refine ⟨⟨fun h => ?_, fun h => ?_⟩, fun _ => hr⟩
        · rw [hr] at h; cases h
        · rcases h with h | h | h
          · exact absurd h ho
          · exact absurd h hnx
          · exact absurd h hnm
      | some e =>
        have hr : (Run s w state).result = some .ActionHalt := by rw [hrun, hm]
        have hmf : MoveFails s w d b := ⟨ho, hs, by simp [hm]⟩
        exact ⟨⟨fun _ => Or.inr (Or.inr hmf), fun _ => hr⟩,
          fun h => absurd (Or.inr (Or.inr hmf)) h⟩

/-- Witness of C6: a failing restructuring in full-export mode continues, a
failing move in skip-export mode halts. -/
theorem halt_iff_fatal_witness :
    (Run ⟨"/out", false⟩ noWsl (sampleState failDriver)).result = some .ActionContinue ∧
    (Run ⟨"/out", true⟩ noWsl (sampleState failDriver)).result = some .ActionHalt :=
  ⟨(halt_iff_fatal ⟨"/out", false⟩ noWsl (sampleState failDriver) failDriver "/b" "/e" rfl rfl
      (fun _ => Or.inl rfl) (fun _ => Or.inl rfl)).2
      (by simp [OutputDirFails, ExportPathFails, MoveFails, noWsl]),
   (halt_iff_fatal ⟨"/out", true⟩ noWsl (sampleState failDriver) failDriver "/b" "/e" rfl rfl
      (fun _ => Or.inl rfl) (fun _ => Or.inl rfl)).1.2
      (Or.inr (Or.inr (by simp [OutputDirFails, MoveFails, noWsl, failDriver])))⟩

/-- C7: in skip-export mode, on a run that reaches the dispatch, the only driver
call is `MoveCreatedVHDsToOutputDir(buildDir, outputDir)`, where `buildDir` is
the string under `build_dir` (the empty string when the key is absent), never
handed to the translator, and `outputDir` is `OutputDir` itself when not under
WSL and the translator's string for it under WSL; the run returns
`ActionContinue` when the move succeeds. -/
theorem move_arguments (s : StepCollateArtifacts) (w : Wsl) (state : StateBag) (d : Driver)
    (b : String) (hs : s.SkipExport = true)
    (hd : state "driver" = some (.driver d)) (hu : state "ui" = some .ui)
    (hb : ReadsAs state "build_dir" b) (hno : ¬ OutputDirFails s w) :
    driverCalls (Run s w state).trace =
      [Event.move b (resolvedOutputDir s w)
        (d.MoveCreatedVHDsToOutputDir b (resolvedOutputDir s w))] ∧
    converts (Run s w state).trace =
      (if w.IsWSL then
        [Event.convert s.OutputDir (w.ConvertWSlPathToWindowsPath s.OutputDir).1 none]
      else []) ∧
    (w.IsWSL = false → resolvedOutputDir s w = s.OutputDir) ∧
    (w.IsWSL = true →
      resolvedOutputDir s w = (w.ConvertWSlPathToWindowsPath s.OutputDir).1) ∧
    (d.MoveCreatedVHDsToOutputDir b (resolvedOutputDir s w) = none →
      (Run s w state).result = some .ActionContinue) := by
  rw [Run_skip_reached s w state d b hs hd hu hb hno]
  refine ⟨?_, ?_, fun h => by simp [resolvedOutputDir, h],
    fun h => by simp [resolvedOutputDir, h], fun h => by rw [h]⟩
  · cases d.MoveCreatedVHDsToOutputDir b (resolvedOutputDir s w) <;> cases w.IsWSL <;>
      simp [driverCalls, isDriverCall]
  · cases d.MoveCreatedVHDsToOutputDir b (resolvedOutputDir s w) <;> cases hw : w.IsWSL <;>
      simp [converts, isConvert, resolvedOutputDir, hw]

/-- Witness of C7: `build_dir = "/b"`, `OutputDir = "/out"`, not WSL, a move that
succeeds: the call is `Move("/b", "/out")` and the run continues. -/
theorem move_arguments_witness :
    driverCalls (Run ⟨"/out", true⟩ noWsl (sampleState okDriver)).trace =
      [Event.move "/b" "/out" none] ∧
    converts (Run ⟨"/out", true⟩ noWsl (sampleState okDriver)).trace = [] ∧
    (Run ⟨"/out", true⟩ noWsl (sampleState okDriver)).result = some .ActionContinue :=
  have h := move_arguments ⟨"/out", true⟩ noWsl (sampleState okDriver) okDriver "/b" rfl rfl rfl
    (Or.inl rfl) (by simp [OutputDirFails, noWsl])
  ⟨h.1, h.2.1, h.2.2.2.2 rfl⟩

/-- C8: in full-export mode, on a run that reaches the dispatch, the only driver
call is `PreserveLegacyExportBehaviour(exportPath, outputDir)`; under WSL the
translator is called on `OutputDir` and then on the string under `export_path`
(the empty string when the key is absent) and the driver receives the two
translated strings; when not under WSL the translator is never called and the
driver receives both strings as they are. -/
theorem preserve_arguments (s : StepCollateArtifacts) (w : Wsl) (state : StateBag) (d : Driver)
    (x : String) (hs : s.SkipExport = false)
    (hd : state "driver" = some (.driver d)) (hu : state "ui" = some .ui)
    (hx : ReadsAs state "export_path" x) (hno : ¬ OutputDirFails s w)
    (hnx : ¬ ExportPathFails s w x) :
    driverCalls (Run s w state).trace =
      [Event.preserve (resolvedExportPath w x) (resolvedOutputDir s w)
        (d.PreserveLegacyExportBehaviour (resolvedExportPath w x) (resolvedOutputDir s w))] ∧
    (w.IsWSL = true →
      resolvedExportPath w x = (w.ConvertWSlPathToWindowsPath x).1 ∧
      resolvedOutputDir s w = (w.ConvertWSlPathToWindowsPath s.OutputDir).1 ∧
      converts (Run s w state).trace =
        [Event.convert s.OutputDir (w.ConvertWSlPathToWindowsPath s.OutputDir).1 none,
         Event.convert x (w.ConvertWSlPathToWindowsPath x).1 none]) ∧
    (w.IsWSL = false →
      resolvedExportPath w x = x ∧ resolvedOutputDir s w = s.OutputDir ∧
      converts (Run s w state).trace = []) := by
  rw [Run_full_reached s w state d x hs hd hu hx hno hnx]
  refine ⟨?_, fun hw => ⟨by simp [resolvedExportPath, hw], by simp [resolvedOutputDir, hw], ?_⟩,
    fun hw => ⟨by simp [resolvedExportPath, hw], by simp [resolvedOutputDir, hw], ?_⟩⟩
  · cases d.PreserveLegacyExportBehaviour (resolvedExportPath w x) (resolvedOutputDir s w) <;>
      cases w.IsWSL <;> simp [driverCalls, isDriverCall]
  · cases d.PreserveLegacyExportBehaviour (resolvedExportPath w x) (resolvedOutputDir s w) <;>
      simp [converts, isConvert, resolvedOutputDir, resolvedExportPath, hw]
  · cases d.PreserveLegacyExportBehaviour (resolvedExportPath w x) (resolvedOutputDir s w) <;>
      simp [converts, isConvert, hw]

/-- Witness of C8: under WSL with `export_path` absent the driver receives the
translations of the empty string and of `/out`; not under WSL with
`export_path = "/e"` it receives `/e` and `/out`. -/
theorem preserve_arguments_witness :
    driverCalls (Run ⟨"/out", false⟩ wslOk (bareState okDriver)).trace =
      [Event.preserve "C:" "C:/out" none] ∧
    driverCalls (Run ⟨"/out", false⟩ noWsl (sampleState okDriver)).trace =
      [Event.preserve "/e" "/out" none] ∧
    converts (Run ⟨"/out", false⟩ noWsl (sampleState okDriver)).trace = [] :=
  ⟨(preserve_arguments ⟨"/out", false⟩ wslOk (bareState okDriver) okDriver "" rfl rfl rfl
      (Or.inr ⟨rfl, rfl⟩) (by simp [OutputDirFails, wslOk]) (by simp [ExportPathFails, wslOk])).1,
   (preserve_arguments ⟨"/out", false⟩ noWsl (sampleState okDriver) okDriver "/e" rfl rfl rfl
      (Or.inl rfl) (by simp [OutputDirFails, noWsl]) (by simp [ExportPathFails, noWsl])).1,
   ((preserve_arguments ⟨"/out", false⟩ noWsl (sampleState okDriver) okDriver "/e" rfl rfl rfl
      (Or.inl rfl) (by simp [OutputDirFails, noWsl]) (by simp [ExportPathFails, noWsl])).2.2
      rfl).2.2⟩

/-- C9: `Run` writes no key other than `error`, and writes `error` once exactly
when it returns `ActionHalt`: after a run that returns `ActionContinue` the
state bag is the one before the run, after a run that returns `ActionHalt`
every key other than `error` is unchanged, and the final bag is the initial one
with the recorded writes replayed.  `Cleanup` leaves the bag unchanged. -/
theorem state_frame (s : StepCollateArtifacts) (w : Wsl) (state : StateBag) :
    ((Run s w state).result = some .ActionContinue → (Run s w state).state = state) ∧
    ((Run s w state).result = some .ActionHalt →
      ∀ k, k ≠ "error" → (Run s w state).state k = state k) ∧
    (∀ k v, Event.statePut k v ∈ (Run s w state).trace → k = "error") ∧
    (puts (Run s w state).trace).length =
      (if (Run s w state).result = some .ActionHalt then 1 else 0) ∧
    (Run s w state).state = applyPuts state (Run s w state).trace ∧
    Cleanup s state = state := by
  have key : ∀ R, R = Run s w state →
      (R.result = some .ActionContinue → R.state = state) ∧
      (R.result = some .ActionHalt → ∀ k, k ≠ "error" → R.state k = state k) ∧
      (∀ k v, Event.statePut k v ∈ R.trace → k = "error") ∧
      (puts R.trace).length = (if R.result = some .ActionHalt then 1 else 0) ∧
      R.state = applyPuts state R.trace := by
    intro R hR
    unfold Run collate at hR
    dsimp only at hR
    repeat' split at hR
    all_goals
      subst hR
      simp_all [puts, isPut, applyPuts, StateBag.Put]
  obtain ⟨h1, h2, h3, h4, h5⟩ := key _ rfl
  exact ⟨h1, h2, h3, h4, h5, rfl⟩

/-- Every text contains itself. -/
theorem contains_self (t : String) : Contains t t :=
  ⟨"", "", by simp⟩

/-- The message built by `fmtErrorf` contains the message of the error it was
built from. -/
theorem contains_fmtErrorf (lead : String) (e : GoError) :
    Contains (fmtErrorf lead e).Error e.Error :=
  ⟨lead, "", by simp [fmtErrorf, GoError.Error]⟩

/-- C10: in every run `ui.Error` is called exactly when a collaborator (the path
translator or one of the two driver operations) returned an error; it is then
called once, with a text that contains the message of that error; and only the
last collaborator call of a run can have returned an error, so no collaborator
is called after a failure. -/
theorem errors_reported_once (s : StepCollateArtifacts) (w : Wsl) (state : StateBag) :
    (uiErrors (Run s w state).trace ≠ [] ↔
      ∃ ev ∈ collabCalls (Run s w state).trace, ∃ e, errOf ev = some e) ∧
    (uiErrors (Run s w state).trace).length ≤ 1 ∧
    (∀ ev ∈ collabCalls (Run s w state).trace, ∀ e, errOf ev = some e →
      ∃ msg, uiErrors (Run s w state).trace = [msg] ∧ Contains msg e.Error) ∧
    (∀ ev ∈ (collabCalls (Run s w state).trace).dropLast, errOf ev = none) := by
  have key : ∀ R, R = Run s w state →
      (uiErrors R.trace ≠ [] ↔ ∃ ev ∈ collabCalls R.trace, ∃ e, errOf ev = some e) ∧
      (uiErrors R.trace).length ≤ 1 ∧
      (∀ ev ∈ collabCalls R.trace, ∀ e, errOf ev = some e →
        ∃ msg, uiErrors R.trace = [msg] ∧ Contains msg e.Error) ∧
      (∀ ev ∈ (collabCalls R.trace).dropLast, errOf ev = none) := by
    intro R hR
    unfold Run collate at hR
    dsimp only at hR
    repeat' split at hR
    all_goals
      subst hR
      simp [collabCalls, isCollabCall, isConvert, isDriverCall, errOf, uiErrors,
        contains_self, contains_fmtErrorf]
  exact key _ rfl

end StepCollate
